import Mathlib

/-!
Shallow embedding of the `@carpasse/dapi-client` library.

The embedding covers:
* `validateDefinition` and the construction-time fns merge of
  `src/DapiClientMixin.ts` (the current, closure-based variant);
* the synthesized lifecycle operations `close`, `isHealthy`, `status`
  of the same file, with the mutable closure variable `_status`
  modelled by explicit state passing and the promise returned by a
  user close function modelled by an explicit settle step;
* the class-based variant's `setClient` / `setDependencies`
  (the `ClientMixin` class), with the JavaScript object heap modelled
  as a map from reference ids to bundle records so that in-place
  mutation versus fresh-object allocation is observable.
-/

set_option autoImplicit false

namespace DapiClient

/-- A sketch of JavaScript runtime values, rich enough to decide the
truthiness checks and the `typeof v === 'function'` checks that
`validateDefinition` performs. -/
inductive JsVal where
  | undef
  | nullV
  | boolV (b : Bool)
  | numV (n : Int)
  | strV (s : String)
  | fnV (id : Nat)
  | objV (id : Nat)
deriving DecidableEq

/-- JavaScript truthiness: `undefined`, `null`, `false`, `0` and the empty
string are falsy, everything else (functions and objects included) is
truthy. -/
def truthy : JsVal → Bool
  | .undef => false
  | .nullV => false
  | .boolV b => b
  | .numV n => n != 0
  | .strV s => s != ""
  | .fnV _ => true
  | .objV _ => true

/-- The `typeof v === 'function'` test. -/
def isFunction : JsVal → Bool
  | .fnV _ => true
  | _ => false

/-- The `ClientStatus` enum of `DapiClientMixin.ts`. -/
inductive ClientStatus where
  | OPEN
  | CLOSING
  | CLOSED
deriving DecidableEq

/-- The dependency bundle as `validateDefinition` reads it: the values found
at the keys `client`, `close`, `isHealthy` and `status` (a key absent from
the object reads as `undefined`). -/
structure DepsObj where
  client : JsVal
  close : JsVal
  isHealthy : JsVal
  status : JsVal
deriving DecidableEq

/-- The definition record passed to `DapiClientMixin`.  `dependencies = none`
models a falsy/absent `dependencies` value; `fns = none` models a `fns`
value that is not an object or is `null`; when `fns` is an object it is the
list of its key/value entries in insertion order. -/
structure Definition where
  close : JsVal
  isHealthy : JsVal
  dependencies : Option DepsObj
  fns : Option (List (String × JsVal))

/-- The distinct `TypeError`s `validateDefinition` can throw, in source
order. -/
inductive ValError where
  | closeNotFn
  | isHealthyNotFn
  | noDependencies
  | reservedDepKey
  | noClient
  | fnsNotDict
  | fnsNonCallable
deriving DecidableEq

/-- Translation of `validateDefinition` (src/DapiClientMixin.ts, lines
44-79), with the guards in source order.  Note that the reserved-key guard
tests `dependencies.close || dependencies.isHealthy` (truthiness), runs
before the `client` check, and does not look at `dependencies.status`. -/
def validateDefinition (d : Definition) : Except ValError Unit :=
  if truthy d.close && !(isFunction d.close) then .error .closeNotFn
  else if truthy d.isHealthy && !(isFunction d.isHealthy) then .error .isHealthyNotFn
  else match d.dependencies with
    | none => .error .noDependencies
    | some deps =>
      if truthy deps.close || truthy deps.isHealthy then .error .reservedDepKey
      else if !(truthy deps.client) then .error .noClient
      else match d.fns with
        | none => .error .fnsNotDict
        | some fns =>
          if fns.any (fun kv => !(isFunction kv.2)) then .error .fnsNonCallable
          else .ok ()

/-- A value in the fns dictionary of the constructed instance: either one of
the three synthesized lifecycle closures or a function taken from the
user's `definition.fns`. -/
inductive FnSlot where
  | user (v : JsVal)
  | synthClose
  | synthIsHealthy
  | synthStatus
deriving DecidableEq

/-- Lookup in a JavaScript object literal given by its entry list: the
entry written last for a key wins. -/
def objLookup (l : List (String × JsVal)) (k : String) : Option JsVal :=
  (l.reverse.find? (fun kv => kv.1 == k)).map (fun kv => kv.2)

/-- The fns dictionary produced by the object spread
`{...definition.fns, close, isHealthy, status}` (src/DapiClientMixin.ts,
lines 160-165): the three synthesized closures are written after the
spread, so they win at their keys regardless of the user's entries. -/
def builtFns (userFns : List (String × JsVal)) : String → Option FnSlot :=
  fun k =>
    if k = "close" then some .synthClose
    else if k = "isHealthy" then some .synthIsHealthy
    else if k = "status" then some .synthStatus
    else (objLookup userFns k).map .user

/-- Construction at the `DapiClientMixin` level: run `validateDefinition`;
on success the instance's fns dictionary is the merged one.  (The further
`DapiMixin` call belongs to the external `@carpasse/dapi` package.) -/
def DapiClientMixinConstruct (d : Definition) :
    Except ValError (String → Option FnSlot) :=
  (validateDefinition d).map (fun _ => builtFns (d.fns.getD []))

/-- Behavior of a user-supplied close function for one invocation: it may
return a non-promise value, return a promise that eventually settles with
`r` (resolution for `Except.ok`, rejection with the carried error for
`Except.error`), or throw synchronously. -/
inductive CloseFnSpec (ε : Type) where
  | returnsValue
  | returnsPromise (r : Except ε Unit)
  | throws (e : ε)

/-- What a `close()` call does from the caller's point of view: return
`undefined` synchronously, throw synchronously, or return a promise that
will settle with `r`. -/
inductive CloseOutcome (ε : Type) where
  | retUndefined
  | thrown (e : ε)
  | pending (r : Except ε Unit)

/-- Result of the synchronous part of one `close()` call:
`statusAtCall` is the value of `_status` at the instant the user close
function is invoked (`none` when it is not invoked), `statusAfterSync` is
the value of `_status` when `close()` returns control to the caller, and
`outcome` is what the call returned or threw. -/
structure CloseResult (ε : Type) where
  statusAtCall : Option ClientStatus
  statusAfterSync : ClientStatus
  outcome : CloseOutcome ε

/-- Translation of the synthesized `close` closure
(src/DapiClientMixin.ts, lines 116-135) with the closure variable
`_status` passed explicitly as `st`:
if `_status !== OPEN` return at once; otherwise, when a user close
function exists, set `_status = CLOSING` and call it — a synchronous
throw propagates, a returned promise is returned (its `.then` handler,
which will set `_status = CLOSED`, is modelled by `settleStatus`) — and
in the remaining cases fall through to `_status = CLOSED` and return
`undefined`. -/
def close {ε : Type} (closeFn : Option (CloseFnSpec ε)) (st : ClientStatus) :
    CloseResult ε :=
  if st ≠ ClientStatus.OPEN then ⟨none, st, .retUndefined⟩
  else
    match closeFn with
    | some spec =>
      let st1 := ClientStatus.CLOSING
      match spec with
      | .throws e => ⟨some st1, st1, .thrown e⟩
      | .returnsPromise r => ⟨some st1, st1, .pending r⟩
      | .returnsValue => ⟨some st1, ClientStatus.CLOSED, .retUndefined⟩
    | none => ⟨none, ClientStatus.CLOSED, .retUndefined⟩

/-- The value of `_status` once a pending close promise settles: the
`response.then(() => { _status = CLOSED })` handler runs only on
resolution; on rejection the handler is skipped and `_status` is left
as it was.  Outcomes that carry no promise leave `_status` alone. -/
def settleStatus {ε : Type} (st : ClientStatus) : CloseOutcome ε → ClientStatus
  | .pending (Except.ok _) => ClientStatus.CLOSED
  | _ => st

/-- Translation of the synthesized `status` closure (line 137):
`const status = () => _status`. -/
def statusFn (st : ClientStatus) : ClientStatus := st

/-- Behavior of a user-supplied isHealthy override for one invocation. -/
inductive HealthFnSpec (ε : Type) where
  | returnsBool (b : Bool)
  | returnsPromise (r : Except ε Bool)
  | throws (e : ε)

/-- What an `isHealthy()` call returns or throws: a plain boolean, a
promise of a boolean, or a synchronous throw. -/
inductive HealthOutcome (ε : Type) where
  | syncBool (b : Bool)
  | pendingBool (r : Except ε Bool)
  | thrown (e : ε)

/-- Result of one `isHealthy()` call, together with whether the
user-supplied override was invoked. -/
structure HealthResult (ε : Type) where
  overrideInvoked : Bool
  outcome : HealthOutcome ε

/-- The value an invoked override contributes as the `isHealthy()` result:
the wrapper returns `_isHealthy.call(this, deps)` unchanged, so the
override's own return value (or throw) is the call's outcome. -/
def healthOutcomeOf {ε : Type} : HealthFnSpec ε → HealthOutcome ε
  | .returnsBool b => .syncBool b
  | .returnsPromise r => .pendingBool r
  | .throws e => .thrown e

/-- Translation of the synthesized `isHealthy` closure
(src/DapiClientMixin.ts, lines 144-154): if `_status !== OPEN` return
`false` without touching the override; otherwise return the override's
result when one exists and `true` otherwise. -/
def isHealthy {ε : Type} (healthFn : Option (HealthFnSpec ε))
    (st : ClientStatus) : HealthResult ε :=
  if st ≠ ClientStatus.OPEN then ⟨false, .syncBool false⟩
  else
    match healthFn with
    | some f => ⟨true, healthOutcomeOf f⟩
    | none => ⟨false, .syncBool true⟩

/-- The observable per-instance state: the closure variable `_status`, the
not-yet-settled promise returned by a user close function (if any), and a
count of how many times the user close function has been invoked. -/
structure InstState (ε : Type) where
  status : ClientStatus
  pendingClose : Option (Except ε Unit)
  closeCalls : Nat

/-- State right after construction: `let _status = ClientStatus.OPEN`
(line 109), no pending close promise, user close function never invoked. -/
def initState (ε : Type) : InstState ε := ⟨ClientStatus.OPEN, none, 0⟩

/-- The operations that can be performed on a constructed instance.
`promiseSettled` is the asynchronous completion of a previously started
`close` (the settling of the promise the user close function returned);
`userCommand` stands for any user-defined command or any inherited
`setDependencies`/`updateDependencies` call, none of which touch the
closure variable `_status`. -/
inductive Op where
  | closeCall
  | promiseSettled
  | isHealthyCall
  | statusCall
  | userCommand
deriving DecidableEq

/-- One step of the instance: `closeCall` runs the synchronous part of
`close` (recording an invocation of the user close function when it is
called and parking a returned promise), `promiseSettled` runs the pending
promise's continuation (`_status = CLOSED` on resolution only), and the
remaining operations never write `_status`. -/
def step {ε : Type} (closeFn : Option (CloseFnSpec ε)) :
    InstState ε → Op → InstState ε
  | s, .closeCall =>
    let r := close closeFn s.status
    { status := r.statusAfterSync
      pendingClose :=
        match r.outcome with
        | .pending p => some p
        | _ => s.pendingClose
      closeCalls := if r.statusAtCall.isSome then s.closeCalls + 1 else s.closeCalls }
  | s, .promiseSettled =>
    match s.pendingClose with
    | some (Except.ok _) => { s with status := ClientStatus.CLOSED, pendingClose := none }
    | some (Except.error _) => { s with pendingClose := none }
    | none => s
  | s, .isHealthyCall => s
  | s, .statusCall => s
  | s, .userCommand => s

/-- Rank of a status in the lifecycle order OPEN < CLOSING < CLOSED. -/
def rank : ClientStatus → Nat
  | .OPEN => 0
  | .CLOSING => 1
  | .CLOSED => 2

end DapiClient

namespace ClientMixinV1

/-- A dependency-bundle object of the class-based `ClientMixin` variant:
the value at the `client` key (`none` models an absent/falsy client) and
the remaining keys, opaque to the lifecycle code, collapsed into `extra`. -/
structure BundleObj (C E : Type) where
  client : Option C
  extra : E
deriving DecidableEq

/-- State of a `DapiClientWrapper` instance of the class-based variant.
JavaScript bundle objects live on a heap addressed by reference ids, so
that mutating a bundle in place (writing through `heap`) is
distinguishable from allocating a fresh bundle and repointing `depsRef`.
`getDependencies()` returns the reference `depsRef`. -/
structure WrapperState (C E : Type) where
  heap : Nat → BundleObj C E
  depsRef : Nat
  status : DapiClient.ClientStatus

/-- Translation of `DapiClientWrapper.setClient` (the class-based
`ClientMixin`, lines 112-124): throw a `TypeError` when `newClient` is
falsy; read `dependencies = this.getDependencies()`; return when
`dependencies?.client === newClient`; otherwise execute
`dependencies.client = newClient`, an in-place write through the current
reference. -/
def setClient {C E : Type} [DecidableEq C] (newClient : Option C)
    (s : WrapperState C E) : WrapperState C E × Except String Unit :=
  match newClient with
  | none => (s, .error "Client cannot be falsy")
  | some c =>
    if (s.heap s.depsRef).client = some c then (s, .ok ())
    else
      ({ s with
          heap := fun r =>
            if r = s.depsRef then { s.heap r with client := some c }
            else s.heap r },
        .ok ())

/-- Translation of `DapiClientWrapper.setDependencies` (the class-based
`ClientMixin`, lines 132-148): throw a `TypeError` when `newDeps` is
falsy or lacks a truthy `client`; return when `newDeps` is
reference-identical to the current bundle; otherwise delegate to
`super.setDependencies`, which (per the external `@carpasse/dapi` store
contract) replaces the bundle wholesale — modelled as repointing
`depsRef` at the caller's object.  The argument is the reference of the
bundle object the caller passes (`none` models a falsy argument). -/
def setDependencies {C E : Type} (newRef : Option Nat)
    (s : WrapperState C E) : WrapperState C E × Except String Unit :=
  match newRef with
  | none => (s, .error "Dependencies must be defined")
  | some r =>
    if (s.heap r).client.isNone then (s, .error "Dependencies must have a client")
    else if r = s.depsRef then (s, .ok ())
    else ({ s with depsRef := r }, .ok ())

end ClientMixinV1

namespace DapiClient

/-- Whether an `Except` computation succeeded (construction produced an
instance rather than throwing). -/
def isOk {ε α : Type} : Except ε α → Bool
  | .ok _ => true
  | .error _ => false

/-- A concrete definition whose bundle holds a valid client, no `close` or
`isHealthy` key, and a truthy value at the key `status`, together with a
well-formed fns dictionary. -/
def defnWithStatusKey : Definition :=
  ⟨.undef, .undef, some ⟨.objV 0, .undef, .undef, .strV "open"⟩,
    some [("command1", .fnV 1)]⟩

/-- A concrete definition whose bundle holds a valid client and the key
`close` with the falsy value `false`. -/
def defnWithFalsyCloseKey : Definition :=
  ⟨.undef, .undef, some ⟨.objV 0, .boolV false, .undef, .undef⟩,
    some [("command1", .fnV 1)]⟩

end DapiClient

namespace ClientMixinV1

/-- A concrete instance state: one bundle object, at reference 0, holding
client `1` and one opaque extra field `7`. -/
def sampleState : WrapperState Nat Nat :=
  ⟨fun _ => ⟨some 1, 7⟩, 0, DapiClient.ClientStatus.OPEN⟩

/-- A concrete heap whose bundle object at reference 0 lacks a client
(models the literal `{}` passed to `setDependencies`). -/
def emptyClientState : WrapperState Nat Nat :=
  ⟨fun _ => ⟨none, 0⟩, 0, DapiClient.ClientStatus.OPEN⟩

end ClientMixinV1

namespace DapiClient

/-- C1 (counterexample): a dependency bundle that carries the key `status`
(truthy, next to a valid client) passes `validateDefinition`, and
construction proceeds to an instance instead of throwing; a bundle whose
`close` key holds the falsy value `false` is accepted as well, since the
reserved-key guard tests truthiness, not key presence. -/
theorem c1_cex_status_key_accepted :
    validateDefinition defnWithStatusKey = .ok () ∧
    isOk (DapiClientMixinConstruct defnWithStatusKey) = true ∧
    validateDefinition defnWithFalsyCloseKey = .ok () :=
  ⟨rfl, rfl, rfl⟩

/-- C1 (amended): for every definition whose dependency bundle holds a
truthy value at the key `close` or at the key `isHealthy`,
`validateDefinition` throws the reserved-key `TypeError` (before even
looking at the `client` field) and construction produces no instance; the
key `status` is not reserved in the bundle. -/
theorem c1_reserved_bundle_keys_rejected (deps : DepsObj)
    (fnsOpt : Option (List (String × JsVal)))
    (h : (truthy deps.close || truthy deps.isHealthy) = true) :
    validateDefinition ⟨.undef, .undef, some deps, fnsOpt⟩
      = .error .reservedDepKey ∧
    isOk (DapiClientMixinConstruct ⟨.undef, .undef, some deps, fnsOpt⟩)
      = false := by
  have hval : validateDefinition ⟨.undef, .undef, some deps, fnsOpt⟩
      = .error .reservedDepKey := by
    have hc1 : ¬ ((truthy JsVal.undef && !(isFunction JsVal.undef)) = true) := by
      decide
    simp only [validateDefinition]
    rw [if_neg hc1, if_neg hc1, if_pos h]
  refine ⟨hval, ?_⟩
  simp [DapiClientMixinConstruct, hval, Except.map, isOk]

/-- C1 (witness): a bundle whose `close` key holds a function is rejected
with the reserved-key error. -/
theorem c1_reserved_bundle_keys_rejected_witness :
    validateDefinition
        ⟨.undef, .undef, some ⟨.objV 0, .fnV 9, .undef, .undef⟩, some []⟩
      = .error .reservedDepKey :=
  (c1_reserved_bundle_keys_rejected ⟨.objV 0, .fnV 9, .undef, .undef⟩
    (some []) (by decide)).1

/-- C2: a `close()` call in state OPEN whose user close function fails —
synchronously throwing `e`, or returning a promise that rejects with `e` —
propagates exactly `e` to the caller, leaves `_status` at CLOSING when
`close()` returns, and the rejection's settling leaves `_status` at
CLOSING as well (neither OPEN nor CLOSED). -/
theorem c2_failing_close_leaves_closing (ε : Type) (e : ε) :
    close (some (.throws e)) ClientStatus.OPEN
      = ⟨some .CLOSING, .CLOSING, .thrown e⟩ ∧
    close (some (.returnsPromise (Except.error e))) ClientStatus.OPEN
      = ⟨some .CLOSING, .CLOSING, .pending (Except.error e)⟩ ∧
    settleStatus ClientStatus.CLOSING
        (CloseOutcome.pending (ε := ε) (Except.error e))
      = ClientStatus.CLOSING :=
  ⟨rfl, rfl, rfl⟩

/-- C3: a `close()` call in state OPEN with a user close function present
sets `_status` to CLOSING before the user function is invoked (so before
any of its asynchronous work can begin); when that function returns a
promise, `close()` hands the promise back with `_status` still CLOSING,
and until it settles every `status()` read yields CLOSING and every
`isHealthy()` call — whatever the override — yields `false`. -/
theorem c3_closing_set_synchronously (ε : Type) (spec : CloseFnSpec ε)
    (r : Except ε Unit) (hf : Option (HealthFnSpec ε)) :
    (close (some spec) ClientStatus.OPEN).statusAtCall = some .CLOSING ∧
    (close (some (.returnsPromise r)) ClientStatus.OPEN).statusAfterSync
      = .CLOSING ∧
    (close (some (.returnsPromise r)) ClientStatus.OPEN).outcome
      = .pending r ∧
    statusFn (close (some (.returnsPromise r))
        ClientStatus.OPEN).statusAfterSync = .CLOSING ∧
    isHealthy hf ClientStatus.CLOSING = ⟨false, .syncBool false⟩ := by
  refine ⟨?_, rfl, rfl, rfl, rfl⟩
  cases spec <;> rfl

/-- C4: `close()` is idempotent.  Starting from a freshly constructed
instance with a user close function, a second `close()` — issued while
the first one's promise is still pending, or after it settled — leaves
the user close function invoked exactly once; and any `close()` call in a
non-OPEN state (CLOSING or CLOSED, whatever the pending promise or the
invocation count) leaves the instance state untouched and returns
`undefined` synchronously without throwing. -/
theorem c4_close_idempotent (ε : Type) (spec : CloseFnSpec ε)
    (cf : Option (CloseFnSpec ε)) (p : Option (Except ε Unit)) (n : Nat) :
    (step (some spec)
        (step (some spec) (initState ε) .closeCall) .closeCall).closeCalls
      = 1 ∧
    (step (some spec)
        (step (some spec)
          (step (some spec) (initState ε) .closeCall) .promiseSettled)
        .closeCall).closeCalls = 1 ∧
    step cf ⟨.CLOSING, p, n⟩ .closeCall = ⟨.CLOSING, p, n⟩ ∧
    step cf ⟨.CLOSED, p, n⟩ .closeCall = ⟨.CLOSED, p, n⟩ ∧
    close cf ClientStatus.CLOSING = ⟨none, .CLOSING, .retUndefined⟩ ∧
    close cf ClientStatus.CLOSED = ⟨none, .CLOSED, .retUndefined⟩ := by
  refine ⟨?_, ?_, rfl, rfl, rfl, rfl⟩
  · cases spec <;> rfl
  · cases spec with
    | returnsValue => rfl
    | throws e => rfl
    | returnsPromise r => cases r <;> rfl

/-- C5: `isHealthy()` returns `false` without invoking any override
whenever `_status` is CLOSING or CLOSED; in state OPEN it returns the
override's own result when an override exists and `true` otherwise.
Every successful `close()` from OPEN (no user close function, a
synchronous user close function, or one whose promise resolves) leaves
the settled `_status` at CLOSED, where the `false` answer applies even if
an override would have answered `true`. -/
theorem c5_isHealthy_gated_by_status (ε : Type) (f : HealthFnSpec ε)
    (hf : Option (HealthFnSpec ε)) :
    isHealthy hf ClientStatus.CLOSING = ⟨false, .syncBool false⟩ ∧
    isHealthy hf ClientStatus.CLOSED = ⟨false, .syncBool false⟩ ∧
    isHealthy (some f) ClientStatus.OPEN = ⟨true, healthOutcomeOf f⟩ ∧
    isHealthy (none : Option (HealthFnSpec ε)) ClientStatus.OPEN
      = ⟨false, .syncBool true⟩ ∧
    settleStatus
        (close (some (CloseFnSpec.returnsValue : CloseFnSpec ε))
          ClientStatus.OPEN).statusAfterSync
        (close (some (CloseFnSpec.returnsValue : CloseFnSpec ε))
          ClientStatus.OPEN).outcome = .CLOSED ∧
    settleStatus
        (close (some (CloseFnSpec.returnsPromise (ε := ε) (Except.ok ())))
          ClientStatus.OPEN).statusAfterSync
        (close (some (CloseFnSpec.returnsPromise (ε := ε) (Except.ok ())))
          ClientStatus.OPEN).outcome = .CLOSED ∧
    settleStatus
        (close (none : Option (CloseFnSpec ε))
          ClientStatus.OPEN).statusAfterSync
        (close (none : Option (CloseFnSpec ε))
          ClientStatus.OPEN).outcome = .CLOSED :=
  ⟨rfl, rfl, rfl, rfl, rfl, rfl, rfl⟩

/-- C6: lifecycle monotonicity.  A fresh instance starts at OPEN; every
step of the instance — `close()`, the settling of a close promise,
`isHealthy()`, `status()`, or any user command — can only keep the status
or move it forward in the order OPEN < CLOSING < CLOSED; from CLOSED no
operation moves the status anywhere else; and the operations other than
`close` (and the settling of the promise `close` started) change nothing
at all. -/
theorem c6_status_monotone (ε : Type) (cf : Option (CloseFnSpec ε))
    (s : InstState ε) (p : Option (Except ε Unit)) (n : Nat) (op : Op) :
    (initState ε).status = .OPEN ∧
    rank s.status ≤ rank (step cf s op).status ∧
    (step cf ⟨.CLOSED, p, n⟩ op).status = .CLOSED ∧
    step cf s .isHealthyCall = s ∧
    step cf s .statusCall = s ∧
    step cf s .userCommand = s := by
  refine ⟨rfl, ?_, ?_, rfl, rfl, rfl⟩
  · cases op with
    | closeCall =>
      obtain ⟨st, pc, k⟩ := s
      cases st with
      | OPEN => exact Nat.zero_le _
      | CLOSING => exact Nat.le_refl _
      | CLOSED => exact Nat.le_refl _
    | promiseSettled =>
      obtain ⟨st, pc, k⟩ := s
      cases pc with
      | none => exact Nat.le_refl _
      | some r =>
        cases r with
        | ok u =>
          cases st <;> simp [step, rank]
        | error e => exact Nat.le_refl _
    | isHealthyCall => exact Nat.le_refl _
    | statusCall => exact Nat.le_refl _
    | userCommand => exact Nat.le_refl _
  · cases op with
    | closeCall => rfl
    | promiseSettled =>
      cases p with
      | none => rfl
      | some r => cases r <;> rfl
    | isHealthyCall => rfl
    | statusCall => rfl
    | userCommand => rfl

/-- C7: the wrapper preserves the synchronicity of the user functions.
The full case table for `close`: it returns a promise exactly when the
user close function is present, the state is OPEN, and that function
itself returned a promise; with no user close function, or a user close
function returning a non-promise value, or outside OPEN, `close()`
returns `undefined` synchronously (a synchronous user throw propagates
synchronously).  Likewise `isHealthy()` returns a plain boolean whenever
the override is absent or returns one, and a promise exactly when the
override itself returned a promise. -/
theorem c7_synchronicity_preserved (ε : Type) (st : ClientStatus) (e : ε)
    (b : Bool) (ru : Except ε Unit) (rb : Except ε Bool) :
    (close (none : Option (CloseFnSpec ε)) st).outcome = .retUndefined ∧
    (close (some (CloseFnSpec.returnsValue : CloseFnSpec ε)) st).outcome
      = .retUndefined ∧
    (close (some (.throws e)) ClientStatus.OPEN).outcome = .thrown e ∧
    (close (some (.throws e)) ClientStatus.CLOSING).outcome
      = .retUndefined ∧
    (close (some (.throws e)) ClientStatus.CLOSED).outcome
      = .retUndefined ∧
    (close (some (.returnsPromise ru)) ClientStatus.OPEN).outcome
      = .pending ru ∧
    (close (some (.returnsPromise ru)) ClientStatus.CLOSING).outcome
      = .retUndefined ∧
    (close (some (.returnsPromise ru)) ClientStatus.CLOSED).outcome
      = .retUndefined ∧
    (isHealthy (none : Option (HealthFnSpec ε)) ClientStatus.OPEN).outcome
      = .syncBool true ∧
    (isHealthy (none : Option (HealthFnSpec ε))
        ClientStatus.CLOSING).outcome = .syncBool false ∧
    (isHealthy (none : Option (HealthFnSpec ε))
        ClientStatus.CLOSED).outcome = .syncBool false ∧
    (isHealthy (some (HealthFnSpec.returnsBool (ε := ε) b)) ClientStatus.OPEN).outcome
      = .syncBool b ∧
    (isHealthy (some (HealthFnSpec.returnsBool (ε := ε) b)) ClientStatus.CLOSING).outcome
      = .syncBool false ∧
    (isHealthy (some (HealthFnSpec.returnsBool (ε := ε) b)) ClientStatus.CLOSED).outcome
      = .syncBool false ∧
    (isHealthy (some (.returnsPromise rb)) ClientStatus.OPEN).outcome
      = .pendingBool rb ∧
    (isHealthy (some (.returnsPromise rb)) ClientStatus.CLOSING).outcome
      = .syncBool false ∧
    (isHealthy (some (.returnsPromise rb)) ClientStatus.CLOSED).outcome
      = .syncBool false ∧
    (isHealthy (some (HealthFnSpec.throws e)) ClientStatus.OPEN).outcome
      = .thrown e := by
  refine ⟨?_, ?_, rfl, rfl, rfl, rfl, rfl, rfl, rfl, rfl, rfl, rfl, rfl,
    rfl, rfl, rfl, rfl, rfl⟩
  · cases st <;> rfl
  · cases st <;> rfl

/-- C10: a definition whose fns dictionary maps the names `close`,
`isHealthy` or `status` to functions passes validation (the reserved-name
rejection applies to the dependency bundle only, never to fns), and in
the constructed instance those three keys hold the synthesized lifecycle
closures — the object spread writes them after the user entries — so the
user's same-named entries are silently shadowed and can never be the
function invoked at those keys. -/
theorem c10_fns_reserved_names_shadowed (deps : DepsObj)
    (userFns : List (String × JsVal)) (v : JsVal)
    (_hmem : ("close", v) ∈ userFns)
    (hclient : truthy deps.client = true)
    (hc : truthy deps.close = false)
    (hh : truthy deps.isHealthy = false)
    (hfns : (userFns.any fun kv => !(isFunction kv.2)) = false) :
    validateDefinition ⟨.undef, .undef, some deps, some userFns⟩
      = .ok () ∧
    DapiClientMixinConstruct ⟨.undef, .undef, some deps, some userFns⟩
      = .ok (builtFns userFns) ∧
    builtFns userFns "close" = some .synthClose ∧
    builtFns userFns "isHealthy" = some .synthIsHealthy ∧
    builtFns userFns "status" = some .synthStatus := by
  have hc1 : ¬ ((truthy JsVal.undef && !(isFunction JsVal.undef)) = true) := by
    decide
  have hor : ¬ ((truthy deps.close || truthy deps.isHealthy) = true) := by
    simp [hc, hh]
  have hcl : ¬ ((!(truthy deps.client)) = true) := by simp [hclient]
  have hval : validateDefinition ⟨.undef, .undef, some deps, some userFns⟩
      = .ok () := by
    simp only [validateDefinition]
    rw [if_neg hc1, if_neg hc1, if_neg hor, if_neg hcl,
      if_neg (by simp [hfns])]
  refine ⟨hval, ?_, rfl, rfl, rfl⟩
  simp [DapiClientMixinConstruct, hval, Except.map]

/-- C10 (witness): a concrete definition whose fns dictionary contains
user entries named `close` and `status` is constructed, and the instance's
`close` key holds the synthesized closure, not the user's function. -/
theorem c10_fns_reserved_names_shadowed_witness :
    validateDefinition
        ⟨.undef, .undef, some ⟨.objV 0, .undef, .undef, .undef⟩,
          some [("close", .fnV 1), ("status", .fnV 2), ("command1", .fnV 3)]⟩
      = .ok () ∧
    builtFns [("close", .fnV 1), ("status", .fnV 2), ("command1", .fnV 3)]
        "close" = some .synthClose :=
  have h := c10_fns_reserved_names_shadowed
    ⟨.objV 0, .undef, .undef, .undef⟩
    [("close", .fnV 1), ("status", .fnV 2), ("command1", .fnV 3)]
    (.fnV 1) (by decide) (by decide) (by decide) (by decide) (by decide)
  ⟨h.1, h.2.2.1⟩

end DapiClient

namespace ClientMixinV1

/-- C8 (counterexample): on a store whose current bundle (reference 0)
holds client `1`, `setClient 2` leaves `depsRef` pointing at the same
bundle object and overwrites that object's `client` field in place: a
reader who captured the bundle reference before the call now reads client
`2`, not the old client `1`, and no new bundle instance is created.  This
contradicts the claimed `update`-equivalence (fresh bundle instance,
previous bundle never mutated). -/
theorem c8_cex_setClient_mutates_in_place :
    ((setClient (some 2) sampleState).1.heap sampleState.depsRef).client
      = some 2 ∧
    (sampleState.heap sampleState.depsRef).client = some 1 ∧
    (setClient (some 2) sampleState).1.depsRef = sampleState.depsRef :=
  ⟨rfl, rfl, rfl⟩

/-- C8 (amended): for a non-falsy `newClient` different from the current
client, `setClient` succeeds and performs an in-place shallow update of
the current bundle object: the same reference now carries the new client
with every other key intact, every other heap object and the lifecycle
status are untouched, and no new bundle instance is allocated (readers
holding the earlier reference observe the new client); when `newClient`
is reference-identical to the current client, `setClient` is a complete
no-op. -/
theorem c8_setClient_in_place_update (C E : Type) [DecidableEq C]
    (s : WrapperState C E) (c : C) :
    ((s.heap s.depsRef).client ≠ some c →
      (setClient (some c) s).2 = .ok () ∧
      (setClient (some c) s).1.depsRef = s.depsRef ∧
      ((setClient (some c) s).1.heap s.depsRef).client = some c ∧
      ((setClient (some c) s).1.heap s.depsRef).extra
        = (s.heap s.depsRef).extra ∧
      (∀ r, r ≠ s.depsRef →
        (setClient (some c) s).1.heap r = s.heap r) ∧
      (setClient (some c) s).1.status = s.status) ∧
    ((s.heap s.depsRef).client = some c →
      setClient (some c) s = (s, .ok ())) := by
  constructor
  · intro h
    refine ⟨?_, ?_, ?_, ?_, ?_, ?_⟩
    · simp [setClient, if_neg h]
    · simp [setClient, if_neg h]
    · simp [setClient, if_neg h]
    · simp [setClient, if_neg h]
    · intro r hr
      simp [setClient, if_neg h, hr]
    · simp [setClient, if_neg h]
  · intro h
    simp [setClient, if_pos h]

/-- C8 (witness): on the sample store the in-place update branch applies:
the call succeeds and the bundle's opaque extra field survives. -/
theorem c8_setClient_in_place_update_witness :
    (setClient (some 2) sampleState).2 = .ok () ∧
    ((setClient (some 2) sampleState).1.heap 0).extra = 7 :=
  have h := (c8_setClient_in_place_update Nat Nat sampleState 2).1
    (by decide)
  ⟨h.1, h.2.2.2.1⟩

/-- C9: `setDependencies` throws a synchronous `TypeError` on a falsy
argument and on a bundle whose `client` is missing/falsy, and `setClient`
throws on a falsy argument; in each failing call the returned instance
state — heap, current bundle reference, and lifecycle status — is exactly
the prior state, so the instance stays usable as before. -/
theorem c9_setters_reject_invalid_unchanged (C E : Type) [DecidableEq C]
    (s : WrapperState C E) (r : Nat) :
    setDependencies (C := C) (E := E) none s
      = (s, .error "Dependencies must be defined") ∧
    ((s.heap r).client = none →
      setDependencies (some r) s
        = (s, .error "Dependencies must have a client")) ∧
    setClient (none : Option C) s = (s, .error "Client cannot be falsy") := by
  refine ⟨rfl, ?_, rfl⟩
  intro h
  simp [setDependencies, h]

/-- C9 (witness): passing a bundle without client (the literal `{}`,
reference 0 of the sample heap without clients) fails with the client
`TypeError` and returns the state unchanged. -/
theorem c9_setters_reject_invalid_unchanged_witness :
    setDependencies (some 0) emptyClientState
      = (emptyClientState, .error "Dependencies must have a client") :=
  (c9_setters_reject_invalid_unchanged Nat Nat emptyClientState 0).2.1 rfl

end ClientMixinV1
